import Mathlib

/-!
Shallow embedding of the core logic of the add-to-zotero-mcp server
(`server/zotero.js`): URL unwrapping, item-type resolution, template
filling, response normalization, and the pure decision structure of the
item-creation / attachment orchestration.

Definitions are transcribed from the JavaScript source.  JavaScript
runtime behaviour the source leans on is modelled explicitly:
string truthiness, `URLSearchParams` form-decoding, `decodeURIComponent`
(which throws `URIError` on a malformed percent escape), and string
splitting.  Percent-decoding is modelled at the level of single escaped
bytes read as code points, which is faithful for ASCII data (all the
inputs exercised here are ASCII).  The outcome of `new URL(raw)` and of
the awaited network calls are passed in as explicit parameters, since
they are produced outside this code.
-/

namespace Zotero

/-- JavaScript truthiness of a possibly-undefined string value
(`undefined` is `none`; the empty string is falsy). -/
def optTruthy : Option String → Bool
  | some s => s != ""
  | none => false

/-- JavaScript `a || b` where `a` is a string or `undefined` and `b` a string. -/
def jsOrStr (a : Option String) (b : String) : String :=
  match a with
  | some v => if v = "" then b else v
  | none => b

/-- JavaScript `a || b` for two string-or-undefined values (`x || null`
is `jsOrOpt x none`). -/
def jsOrOpt (a b : Option String) : Option String :=
  if optTruthy a then a else b

def isHexDigit (c : Char) : Bool :=
  c.isDigit || ('a' ≤ c && c ≤ 'f') || ('A' ≤ c && c ≤ 'F')

def hexVal (c : Char) : Nat :=
  if c.isDigit then c.toNat - '0'.toNat
  else if 'a' ≤ c && c ≤ 'f' then c.toNat - 'a'.toNat + 10
  else c.toNat - 'A'.toNat + 10

/-- Model of `decodeURIComponent`: percent escapes become the escaped
byte (read as a code point); `none` exactly where the JavaScript
function throws `URIError`, namely at a `%` not followed by two hex
digits. -/
def percentDecodeStrict : List Char → Option (List Char)
  | [] => some []
  | '%' :: a :: b :: rest =>
    if isHexDigit a && isHexDigit b then
      (percentDecodeStrict rest).map (fun r => Char.ofNat (16 * hexVal a + hexVal b) :: r)
    else none
  | ['%'] => none
  | ['%', _] => none
  | c :: rest => (percentDecodeStrict rest).map (fun r => c :: r)

/-- `decodeURIComponent(s)`; `none` models a thrown `URIError`. -/
def decodeURIComponent (s : String) : Option String :=
  (percentDecodeStrict s.toList).map (fun l => String.mk l)

/-- The never-throwing percent decoding used by `URLSearchParams`:
a malformed escape is left in place verbatim. -/
def percentDecodeLenient : List Char → List Char
  | [] => []
  | '%' :: a :: b :: rest =>
    if isHexDigit a && isHexDigit b then
      Char.ofNat (16 * hexVal a + hexVal b) :: percentDecodeLenient rest
    else '%' :: percentDecodeLenient (a :: b :: rest)
  | c :: rest => c :: percentDecodeLenient rest

/-- Form decoding of a query name or value: `+` becomes a space, then
lenient percent-decoding. -/
def formDecode (l : List Char) : List Char :=
  percentDecodeLenient (l.map (fun c => if c = '+' then ' ' else c))

/-- Split a character list at every occurrence of a separator character,
with JavaScript `String.split` shape (an empty input yields one empty
piece). -/
def splitChar (sep : Char) : List Char → List (List Char)
  | [] => [[]]
  | c :: rest =>
    let r := splitChar sep rest
    if c = sep then [] :: r
    else (c :: r.headD []) :: r.tail

/-- Split a piece of a query string at its first `=`; a piece with no
`=` has an empty value, as in `URLSearchParams`. -/
def splitFirstEq : List Char → List Char × List Char
  | [] => ([], [])
  | '=' :: rest => ([], rest)
  | c :: rest =>
    let p := splitFirstEq rest
    (c :: p.1, p.2)

/-- Model of `parsed.searchParams.get(name)`: the query string (without
the leading `?`) is split on `&`, empty pieces are skipped, each piece
is split at its first `=`, and names and values are form-decoded; the
value of the first pair whose name matches is returned. -/
def searchParamsGet (query name : String) : Option String :=
  let pairs := ((splitChar '&' query.toList).filter (fun p => p != [])).map
    (fun piece =>
      let p := splitFirstEq piece
      (formDecode p.1, formDecode p.2))
  (pairs.find? (fun p => p.1 == name.toList)).map (fun p => String.mk p.2)

/-- Substring test (`pat` occurs somewhere in the list). -/
def containsSub (pat : List Char) : List Char → Bool
  | [] => pat.isEmpty
  | c :: rest => pat.isPrefixOf (c :: rest) || containsSub pat rest

/-- Test for a regex fragment `p1.*p2`: an occurrence of `p1` followed,
at or after its end, by an occurrence of `p2`. -/
def containsSeq (p1 p2 : List Char) : List Char → Bool
  | [] => p1.isEmpty && p2.isEmpty
  | c :: rest =>
    (p1.isPrefixOf (c :: rest) && containsSub p2 (List.drop p1.length (c :: rest)))
      || containsSeq p1 p2 rest

def lowerChars (s : String) : List Char := s.toList.map Char.toLower

/-- `s.startsWith(pre)` for strings. -/
def strStartsWith (s pre : String) : Bool := pre.toList.isPrefixOf s.toList

/-- `s.endsWith(suf)` for strings. -/
def strEndsWith (s suf : String) : Bool := suf.toList.isSuffixOf s.toList

/-- The `WRAPPER_PATTERNS` regex
`/pdfrenderer|pdf\.svc|htmltopdf|html2pdf|render.*pdf|pdf.*render|webshot|screenshot|snapshot|proxy\.php|fetch\.php/i`
applied with `.test` to a string (case-insensitive, so the subject is
lowercased; the pattern alternatives are already lowercase). -/
def wrapperPatternsTest (subject : String) : Bool :=
  let s := lowerChars subject
  containsSub ("pdfrenderer".toList) s ||
  containsSub ("pdf.svc".toList) s ||
  containsSub ("htmltopdf".toList) s ||
  containsSub ("html2pdf".toList) s ||
  containsSeq ("render".toList) ("pdf".toList) s ||
  containsSeq ("pdf".toList) ("render".toList) s ||
  containsSub ("webshot".toList) s ||
  containsSub ("screenshot".toList) s ||
  containsSub ("snapshot".toList) s ||
  containsSub ("proxy.php".toList) s ||
  containsSub ("fetch.php".toList) s

def URL_PARAM_NAMES : List String := ["url", "source", "target", "uri", "link", "src"]

/-- What `new URL(raw)` exposes of a successfully parsed absolute URL:
`.pathname`, and the serialized query `.search` without its leading
`?`. -/
structure URLRecord where
  pathname : String
  query : String
deriving DecidableEq, Repr

/-- `pathname.replace(/^\/|\/$/g, "")`: the regex removes one leading
and one trailing slash. -/
def stripEdgeSlashes (p : List Char) : List Char :=
  let p1 := match p with
    | '/' :: rest => rest
    | other => other
  match p1.getLast? with
  | some '/' => p1.dropLast
  | _ => p1

/-- `parsed.pathname.replace(/^\/|\/$/g, "").split("/")`. -/
def pathSegments (pathname : String) : List (List Char) :=
  splitChar '/' (stripEdgeSlashes pathname.toList)

/-- The candidate-parameter loop of `unwrapUrl`.  `Except.error ()`
models an uncaught `URIError` escaping from `decodeURIComponent`
(which the source calls outside its `try`). -/
def unwrapLoop (rec : URLRecord) (isWrapper : Bool) (raw : String) :
    List String → Except Unit String
  | [] => .ok raw
  | param :: rest =>
    match searchParamsGet rec.query param with
    | none => unwrapLoop rec isWrapper raw rest
    | some candidate =>
      if candidate = "" then unwrapLoop rec isWrapper raw rest
      else
        match decodeURIComponent candidate with
        | none => .error ()
        | some decoded =>
          if strStartsWith decoded "http://" || strStartsWith decoded "https://" then
            if isWrapper then .ok decoded
            else if (pathSegments rec.pathname).length ≥ 2 then .ok decoded
            else unwrapLoop rec isWrapper raw rest
          else unwrapLoop rec isWrapper raw rest

/-- `unwrapUrl(raw)`.  The first parameter is the outcome of
`new URL(raw)`: `none` when parsing throws (the `catch` returns `raw`),
`some rec` when it yields a URL record. -/
def unwrapUrl (parsed : Option URLRecord) (raw : String) : Except Unit String :=
  match parsed with
  | none => .ok raw
  | some rec => unwrapLoop rec (wrapperPatternsTest rec.pathname) raw URL_PARAM_NAMES

instance {e a : Type} [DecidableEq e] [DecidableEq a] : DecidableEq (Except e a) := fun x y =>
  match x, y with
  | .ok u, .ok v =>
    if h : u = v then isTrue (by rw [h]) else isFalse (fun hc => h (Except.ok.inj hc))
  | .error u, .error v =>
    if h : u = v then isTrue (by rw [h]) else isFalse (fun hc => h (Except.error.inj hc))
  | .ok _, .error _ => isFalse (fun hc => Except.noConfusion hc)
  | .error _, .ok _ => isFalse (fun hc => Except.noConfusion hc)

/-- The static `ITEM_TYPE_MAP` object literal, as a key-value table. -/
def ITEM_TYPE_MAP : List (String × String) :=
  [ ("article", "journalArticle"),
    ("journal", "journalArticle"),
    ("book", "book"),
    ("chapter", "bookSection"),
    ("conference", "conferencePaper"),
    ("thesis", "thesis"),
    ("report", "report"),
    ("webpage", "webpage"),
    ("blog", "blogPost"),
    ("news", "newspaperArticle"),
    ("magazine", "magazineArticle"),
    ("document", "document"),
    ("legal", "statute"),
    ("case", "case"),
    ("patent", "patent"),
    ("video", "videoRecording"),
    ("podcast", "podcast"),
    ("presentation", "presentation") ]

/-- Own-property lookup on the object literal's key-value table. -/
def lookupStr (m : List (String × String)) (k : String) : Option String :=
  (m.find? (fun p => p.1 == k)).map (fun p => p.2)

/-- One character of `s.toLowerCase()`: ASCII A-Z are lowered, and
U+212A KELVIN SIGN — the one non-ASCII character whose JavaScript
lowercase form is an ASCII letter — becomes `k`.  Every other character
is left unchanged: its JavaScript lowercase form is non-ASCII (the only
multi-character special lowercasing, U+0130, produces a combining
mark), so it cannot contribute to an ASCII table key or
`Object.prototype` member name, and the lookups below are unaffected. -/
def jsCharLower (c : Char) : Char :=
  if 'A' ≤ c && c ≤ 'Z' then Char.ofNat (c.toNat + 32)
  else if c.toNat = 0x212A then 'k'
  else c

/-- `s.toLowerCase()`. -/
def lowerStr (s : String) : String := String.mk (s.toList.map jsCharLower)

/-- A JavaScript value reachable from the item-type lookup: a string,
or a truthy non-string member inherited from `Object.prototype` (a
function, or the object produced by the `__proto__` accessor),
identified by its property name. -/
inductive JsValue where
  | str : String → JsValue
  | protoMember : String → JsValue
deriving DecidableEq, Repr

/-- The property names a plain object literal inherits from
`Object.prototype` in Node (the standard methods plus the Annex B
accessors); each holds a truthy non-string value. -/
def OBJECT_PROTOTYPE_MEMBERS : List String :=
  [ "constructor", "hasOwnProperty", "isPrototypeOf", "propertyIsEnumerable",
    "toLocaleString", "toString", "valueOf",
    "__defineGetter__", "__defineSetter__", "__lookupGetter__", "__lookupSetter__",
    "__proto__" ]

/-- The property access `ITEM_TYPE_MAP[k]`: an own property of the
object literal when `k` is one of its keys, else the member of that
name inherited from `Object.prototype`, else `undefined`. -/
def itemTypeMapAccess (k : String) : Option JsValue :=
  match lookupStr ITEM_TYPE_MAP k with
  | some v => some (.str v)
  | none =>
    if OBJECT_PROTOTYPE_MEMBERS.contains k then some (.protoMember k) else none

/-- `resolveItemType(simple)`: `ITEM_TYPE_MAP[simple.toLowerCase()] || simple`.
The looked-up value can be a member inherited from `Object.prototype`;
it is truthy, so `||` returns it rather than the input. -/
def resolveItemType (simple : String) : JsValue :=
  match itemTypeMapAccess (lowerStr simple) with
  | some (.str v) => if v = "" then .str simple else .str v
  | some (.protoMember n) => .protoMember n
  | none => .str simple

/-- The text a template literal interpolates for a resolved type value:
a string interpolates as itself (the case every claim exercises); the
rendering of an inherited `Object.prototype` member — a function or
object — is engine-defined and abstracted here by naming the member. -/
def jsValueText : JsValue → String
  | .str s => s
  | .protoMember n => "[Object.prototype member " ++ n ++ "]"

/-- A creator object built by `createItem`; absent properties are `none`. -/
structure Creator where
  creatorType : String
  firstName : Option String := none
  lastName : Option String := none
  name : Option String := none
deriving DecidableEq, Repr

/-- ASCII whitespace, for the `\s` class and `trim` (full JavaScript also
covers Unicode spaces; the data here is ASCII). -/
def isJsWhitespace (c : Char) : Bool :=
  c = ' ' || c = '\t' || c = '\n' || c = '\r' || c.toNat = 11 || c.toNat = 12

/-- `s.trim()`. -/
def trimChars (l : List Char) : List Char :=
  ((l.dropWhile isJsWhitespace).reverse.dropWhile isJsWhitespace).reverse

/-- Collapse each whitespace run to a single space (so that splitting on
a space below models splitting on `/\s+/`). -/
def collapseWs : List Char → List Char
  | [] => []
  | c :: rest =>
    if isJsWhitespace c then
      match collapseWs rest with
      | ' ' :: r => ' ' :: r
      | r => ' ' :: r
    else c :: collapseWs rest

/-- `t.split(/\s+/)` for an already trimmed `t` (an empty string yields
one empty token, as in JavaScript). -/
def wsSplit (l : List Char) : List (List Char) :=
  splitChar ' ' (collapseWs l)

def joinSpace (ls : List (List Char)) : List Char :=
  List.intercalate [' '] ls

/-- The author-name mapper inside `createItem`: the name is trimmed and
split on whitespace; two or more tokens split into first/last name,
otherwise the creator keeps the single `name` property as given. -/
def mapAuthor (name : String) : Creator :=
  let parts := wsSplit (trimChars name.toList)
  if parts.length ≥ 2 then
    { creatorType := "author"
      firstName := some (String.mk (joinSpace parts.dropLast))
      lastName := some (String.mk (parts.getLastD [])) }
  else
    { creatorType := "author", name := some name }

/-- A template field value (string fields, and the three structured
fields `createItem` can write). -/
inductive FieldVal where
  | str : String → FieldVal
  | creatorList : List Creator → FieldVal
  | tagList : List String → FieldVal
  | collectionList : List String → FieldVal
deriving DecidableEq, Repr

/-- An item template: the ordered own properties of the template object
returned by the upstream template endpoint. -/
abbrev Template := List (String × FieldVal)

/-- `"k" in template`. -/
def hasKey (t : Template) (k : String) : Bool :=
  t.any (fun p => p.1 == k)

/-- `template.k = v`: overwrite in place, or append a new property. -/
def setKey (t : Template) (k : String) (v : FieldVal) : Template :=
  if hasKey t k then t.map (fun p => if p.1 == k then (p.1, v) else p)
  else t ++ [(k, v)]

/-- `l.length > 0` (JavaScript array truthiness gate used on `authors`
and `tags`). -/
def jsNonempty {α : Type} (l : List α) : Bool := !l.isEmpty

/-- The caller-supplied metadata of `createItem` (object destructuring
defaults included); absent optional strings are `none`. -/
structure SaveRequest where
  title : String := ""
  itemType : String := "webpage"
  authors : List String := []
  date : Option String := none
  url : Option String := none
  abstract : Option String := none
  publication : Option String := none
  volume : Option String := none
  issue : Option String := none
  pages : Option String := none
  doi : Option String := none
  tags : List String := []
  collectionId : Option String := none
  pdfUrl : Option String := none
  snapshotUrl : Option String := none
  extra : Option String := none
deriving DecidableEq, Repr

/-- The template-filling section of `createItem` (lines between the
template fetch and the POST), transcribed assignment by assignment. -/
def fillTemplate (template : Template) (r : SaveRequest) : Template :=
  let t := setKey template "title" (.str r.title)
  let t := if optTruthy r.date then setKey t "date" (.str (r.date.getD "")) else t
  let t := if optTruthy r.url && hasKey t "url" then
      setKey t "url" (.str (r.url.getD "")) else t
  let t := if optTruthy r.abstract && hasKey t "abstractNote" then
      setKey t "abstractNote" (.str (r.abstract.getD "")) else t
  let t := if optTruthy r.extra && hasKey t "extra" then
      setKey t "extra" (.str (r.extra.getD "")) else t
  let t := if optTruthy r.publication then
      (if hasKey t "publicationTitle" then
        setKey t "publicationTitle" (.str (r.publication.getD ""))
      else if hasKey t "blogTitle" then
        setKey t "blogTitle" (.str (r.publication.getD ""))
      else if hasKey t "websiteTitle" then
        setKey t "websiteTitle" (.str (r.publication.getD ""))
      else t)
    else t
  let t := if optTruthy r.volume && hasKey t "volume" then
      setKey t "volume" (.str (r.volume.getD "")) else t
  let t := if optTruthy r.issue && hasKey t "issue" then
      setKey t "issue" (.str (r.issue.getD "")) else t
  let t := if optTruthy r.pages && hasKey t "pages" then
      setKey t "pages" (.str (r.pages.getD "")) else t
  let t := if optTruthy r.doi && hasKey t "DOI" then
      setKey t "DOI" (.str (r.doi.getD "")) else t
  let t := if jsNonempty r.authors && hasKey t "creators" then
      setKey t "creators" (.creatorList (r.authors.map mapAuthor)) else t
  let t := if jsNonempty r.tags then setKey t "tags" (.tagList r.tags) else t
  let t := if optTruthy r.collectionId then
      setKey t "collections" (.collectionList [r.collectionId.getD ""]) else t
  t

/-- A tag entry of a raw item: either an object with a `tag` property or
a bare string (both occur in responses; `formatItemSummary` handles
both with `t.tag || t`). -/
inductive JTag where
  | tagged (tag : String)
  | plain (s : String)
deriving DecidableEq, Repr

/-- `t.tag || t`. -/
def tagOut : JTag → JTag
  | .tagged s => if s != "" then .plain s else .tagged s
  | .plain s => .plain s

/-- A creator entry of a raw item. -/
structure RawCreator where
  name : Option String := none
  firstName : Option String := none
  lastName : Option String := none
deriving DecidableEq, Repr

/-- The item-shaped properties an API response object can carry. -/
structure ItemData where
  key : Option String := none
  title : Option String := none
  itemType : Option String := none
  creators : List RawCreator := []
  date : Option String := none
  tags : List JTag := []
  url : Option String := none
deriving DecidableEq, Repr

/-- A raw response row: `self` holds the object's own top-level fields
(`raw.key`, and the item fields read when `formatItemSummary` falls
back to `raw` itself), `data` the nested `raw.data` record when
present. -/
structure RawItem where
  self : ItemData := {}
  data : Option ItemData := none
deriving DecidableEq, Repr

/-- The clean summary object built by `formatItemSummary`. -/
structure Summary where
  key : Option String
  title : String
  itemType : Option String
  creators : Option String
  date : Option String
  tags : List JTag
  url : Option String
deriving DecidableEq, Repr

/-- The display string of one creator entry:
`c.name ? c.name : (c.firstName || "") + " " + (c.lastName || "") |> trim`. -/
def creatorDisplay (c : RawCreator) : String :=
  if optTruthy c.name then c.name.getD ""
  else String.mk (trimChars ((c.firstName.getD "") ++ " " ++ (c.lastName.getD "")).toList)

/-- `formatItemSummary(raw)`. -/
def formatItemSummary (raw : RawItem) : Summary :=
  let d := raw.data.getD raw.self
  let joined := String.intercalate "; "
    ((d.creators.map creatorDisplay).filter (fun s => s != ""))
  { key := jsOrOpt raw.self.key d.key
    title := if optTruthy d.title then d.title.getD "" else "(untitled)"
    itemType := d.itemType
    creators := if joined != "" then some joined else none
    date := if optTruthy d.date then d.date else none
    tags := d.tags.map tagOut
    url := if optTruthy d.url then d.url else none }

/-- The row filter shared by the listing operations:
`r.data?.itemType !== "attachment" && r.data?.itemType !== "note"`. -/
def keepTopLevel (r : RawItem) : Bool :=
  ((r.data.bind (fun d => d.itemType)) != some "attachment") &&
  ((r.data.bind (fun d => d.itemType)) != some "note")

/-- The response processing of `searchItems` applied to `response.raw`. -/
def searchItems (rows : List RawItem) : List Summary :=
  (rows.filter keepTopLevel).map formatItemSummary

/-- The response processing of `getCollectionItems` applied to `response.raw`. -/
def getCollectionItems (rows : List RawItem) : List Summary :=
  (rows.filter keepTopLevel).map formatItemSummary

/-- The response processing of `getRecentItems` applied to `response.raw`. -/
def getRecentItems (rows : List RawItem) : List Summary :=
  (rows.filter keepTopLevel).map formatItemSummary

/-- Split on a non-empty separator substring (fuel-driven; the fuel is
the subject length, which each step strictly consumes). -/
def splitSubGo (sep : List Char) : Nat → List Char → List Char → List (List Char)
  | _, [], acc => [acc.reverse]
  | 0, rest, acc => [acc.reverse ++ rest]
  | fuel + 1, c :: rest, acc =>
    if sep.isPrefixOf (c :: rest) then
      acc.reverse :: splitSubGo sep fuel (List.drop (sep.length - 1) rest) []
    else splitSubGo sep fuel rest (c :: acc)

/-- `s.split(sep)` for a non-empty separator string. -/
def splitSub (s sep : String) : List String :=
  (splitSubGo sep.toList s.toList.length s.toList []).map (fun l => String.mk l)

/-- What the awaited `fetch` resolved to (headers already read out). -/
structure FetchOutcome where
  ok : Bool := true
  status : Nat := 200
  statusText : String := ""
  contentType : Option String := none
  contentDisposition : Option String := none
  /-- `buffer.length` of the downloaded body -/
  bodyLen : Nat := 0
deriving DecidableEq, Repr

/-- What the awaited upload POST resolved to:
`uploadResp?.response?.status || uploadResp?.status` and
`uploadResp?.response?.ok ?? uploadResp?.ok` are precomputed into
`status` and `ok` (`none` models `undefined`), and `raw` is the
`JSON.stringify(uploadResp?.raw || uploadResp?.getData?.() || "unknown")`
string used in the error message. -/
structure UploadOutcome where
  status : Option Nat := none
  ok : Option Bool := none
  raw : String := "unknown"
deriving DecidableEq, Repr

/-- Outcomes of the awaited calls inside `attachPdfFromUrl`; an
`Except.error msg` models a throw caught by the surrounding `try`
(network failure, timeout, upstream rejection). -/
structure AttachEnv where
  fetched : Except String FetchOutcome := .ok {}
  /-- `createResp.getEntityByIndex(0)?.key` of the attachment-item POST
  (`.ok none`: no entity in the response) -/
  created : Except String (Option String) := .ok none
  /-- `JSON.stringify(createResp.raw || createResp)` -/
  createdRaw : String := ""
  uploaded : Except String UploadOutcome := .ok {}
deriving DecidableEq, Repr

/-- The plain object returned by `attachPdfFromUrl`; properties absent
from a given return site are `none`. -/
structure AttachResult where
  success : Bool
  error : Option String := none
  filename : Option String := none
  size_bytes : Option Nat := none
  attachment_key : Option String := none
deriving DecidableEq, Repr

def statusStr : Option Nat → String
  | some n => toString n
  | none => "undefined"

/-- The filename determination of `attachPdfFromUrl` (the
`if (!filename)` block). -/
def pdfFilename (resp : FetchOutcome) (pdfUrl : String) (filename0 : Option String) : String :=
  if optTruthy filename0 then filename0.getD ""
  else
    let cd := resp.contentDisposition.getD ""
    if containsSub ("filename=".toList) cd.toList then
      String.mk (trimChars
        (((splitSub cd "filename=").getLastD "").toList.filter
          (fun c => c != '\'' && c != '"')))
    else
      let f := ((splitSub ((splitSub pdfUrl "/").getLastD "") "?").headD "")
      if strEndsWith f ".pdf" then f else "attachment.pdf"

/-- `attachPdfFromUrl(apiKey, libraryId, parentItemKey, pdfUrl, filename)`.
`parsedPdfUrl` is the outcome of `new URL(pdfUrl)` inside the initial
`unwrapUrl` call (which runs before the `try`, so a `URIError` from it
escapes as `.error`); `env` carries the outcomes of the awaited calls.
Every path after the `try` begins produces a structured result. -/
def attachPdfFromUrl (parsedPdfUrl : Option URLRecord) (env : AttachEnv)
    (pdfUrl0 : String) (filename0 : Option String) : Except Unit AttachResult :=
  match unwrapUrl parsedPdfUrl pdfUrl0 with
  | .error e => .error e
  | .ok pdfUrl =>
    .ok <|
      match env.fetched with
      | .error msg => { success := false, error := some ("Failed to attach PDF: " ++ msg) }
      | .ok resp =>
        if !resp.ok then
          { success := false
            error := some ("Failed to download PDF: HTTP " ++ toString resp.status
              ++ " " ++ resp.statusText) }
        else if resp.bodyLen = 0 then
          { success := false, error := some "Downloaded PDF is empty (0 bytes)" }
        else
          let filename := pdfFilename resp pdfUrl filename0
          match env.created with
          | .error msg => { success := false, error := some ("Failed to attach PDF: " ++ msg) }
          | .ok none =>
            { success := false
              error := some ("Failed to create attachment item. API response: " ++ env.createdRaw) }
          | .ok (some key) =>
            match env.uploaded with
            | .error msg => { success := false, error := some ("Failed to attach PDF: " ++ msg) }
            | .ok up =>
              if up.ok = some false then
                { success := false
                  error := some ("Attachment item created (" ++ key
                    ++ ") but file upload failed. Status: " ++ statusStr up.status
                    ++ ". Response: " ++ up.raw)
                  attachment_key := some key }
              else
                { success := true, filename := some filename
                  size_bytes := some resp.bodyLen, attachment_key := some key }

/-- Outcomes of the awaited calls inside `createItem`.  The attachment
helpers have their own `try`/`catch` and always resolve to a result
object, so their outcomes are plain functions of the created item
key. -/
structure CreateEnv where
  /-- `getItemTemplate(zoteroType)`: `.error` models the catch that
  returns the invalid-item-type failure -/
  template : Except String Template := .ok []
  /-- `response.getEntityByIndex(0)?.key` of the item POST, as a function
  of the posted (filled) template; `.error` models a throw -/
  posted : Template → Except String (Option String) := fun _ => .ok none
  /-- `JSON.stringify(response.raw)` -/
  postedRaw : String := ""
  /-- outcome of the awaited `attachPdfFromUrl(apiKey, libraryId, itemKey,
  pdfUrl)` call: `.ok` a result object (everything inside that function's
  `try` resolves to one), `.error msg` a throw that escapes it — the
  `URIError` from the `unwrapUrl` call that runs before its `try` -/
  pdfAttach : String → Except String AttachResult := fun _ => .ok { success := true }
  /-- outcome of the awaited `attachSnapshot(...)` call, with the same
  throw path (`unwrapUrl` also runs before that function's `try`) -/
  snapshotAttach : String → Except String AttachResult := fun _ => .ok { success := true }

/-- The plain object returned by `createItem`. -/
structure CreateResult where
  success : Bool
  item_key : Option String := none
  message : Option String := none
  error : Option String := none
  pdf_attachment : Option AttachResult := none
  snapshot_attachment : Option AttachResult := none
deriving DecidableEq, Repr

/-- `createItem(apiKey, libraryId, metadata)`: type resolution, template
fetch, template filling, item POST, then the optional attachment step
(PDF takes priority).  The outer `try`/`catch` spans the POST and the
attachment step, so a throw escaping an attachment helper (the
pre-`try` `URIError`) is caught here and returned as
`success:false` with the thrown message — and without `item_key`. -/
def createItem (env : CreateEnv) (r : SaveRequest) : CreateResult :=
  let zoteroType := jsValueText (resolveItemType r.itemType)
  match env.template with
  | .error msg =>
    { success := false
      error := some ("Invalid item type '" ++ zoteroType ++ "': " ++ msg) }
  | .ok template0 =>
    let filled := fillTemplate template0 r
    match env.posted filled with
    | .error msg => { success := false, error := some msg }
    | .ok none =>
      { success := false, error := some ("Failed to create item: " ++ env.postedRaw) }
    | .ok (some itemKey) =>
      let base : CreateResult :=
        { success := true
          item_key := some itemKey
          message := some ("Created " ++ zoteroType ++ ": " ++ r.title) }
      if optTruthy r.pdfUrl then
        match env.pdfAttach itemKey with
        | .error msg => { success := false, error := some msg }
        | .ok att => { base with pdf_attachment := some att }
      else if optTruthy r.snapshotUrl then
        match env.snapshotAttach itemKey with
        | .error msg => { success := false, error := some msg }
        | .ok att => { base with snapshot_attachment := some att }
      else base

/-- Decidable presence check for the amended C5 statement: the value of
candidate parameter `p`, when present and non-empty, decodes without a
`URIError`. -/
def paramDecodes (rec : URLRecord) (p : String) : Bool :=
  match searchParamsGet rec.query p with
  | some c => c == "" || (decodeURIComponent c).isSome
  | none => true

/-- The unwrap value a single candidate parameter contributes, per the
claim: its decoded value when that value starts with `http://` or
`https://` and the outer path matches a wrapper pattern or has at least
two stripped segments. -/
def qualifyingValue (rec : URLRecord) (p : String) : Option String :=
  match searchParamsGet rec.query p with
  | none => none
  | some c =>
    if c = "" then none
    else
      match decodeURIComponent c with
      | none => none
      | some dec =>
        if (strStartsWith dec "http://" || strStartsWith dec "https://")
            && (wrapperPatternsTest rec.pathname
                || decide ((pathSegments rec.pathname).length ≥ 2)) then
          some dec
        else none

/-- The creators summary field as §4.4 of the spec words it: prefer
`name` when present (non-empty), else first and last name joined by a
space and trimmed; drop empty results; join the survivors with `"; "`;
`null` when the join is empty. -/
def creatorsSpec (cs : List RawCreator) : Option String :=
  let entries := cs.map (fun c =>
    if optTruthy c.name then c.name.getD ""
    else String.mk (trimChars ((c.firstName.getD "") ++ " " ++ (c.lastName.getD "")).toList))
  let joined := String.intercalate "; " (entries.filter (fun s => s != ""))
  if joined = "" then none else some joined

/-! ## Helper lemmas -/

theorem any_fst_map_setVal (t : Template) (a k : String) (v : FieldVal) :
    (t.map (fun p => if p.1 == a then (p.1, v) else p)).any (fun p => p.1 == k) =
      t.any (fun p => p.1 == k) := by
  induction t with
  | nil => rfl
  | cons hd tl ih =>
    simp only [List.map_cons, List.any_cons, ih]
    by_cases h : (hd.1 == a) = true <;> simp [h]

theorem hasKey_setKey (t : Template) (a k : String) (v : FieldVal) :
    hasKey (setKey t a v) k = (hasKey t k || a == k) := by
  unfold setKey
  by_cases h : hasKey t a = true
  · rw [if_pos h]
    show (t.map _).any _ = _
    rw [any_fst_map_setVal]
    show hasKey t k = (hasKey t k || (a == k))
    cases hak : (a == k) with
    | false => rw [Bool.or_false]
    | true =>
      have hk : a = k := eq_of_beq hak
      subst hk
      simp [h]
  · rw [if_neg h]
    simp [hasKey, List.any_append]

theorem hasKey_setKey_existing {t : Template} {a k : String} {v : FieldVal}
    (ha : hasKey t a = true) (h : hasKey (setKey t a v) k = true) :
    hasKey t k = true := by
  rw [hasKey_setKey] at h
  simp only [Bool.or_eq_true] at h
  rcases h with h1 | h2
  · exact h1
  · have hk : a = k := eq_of_beq h2
    exact hk ▸ ha

theorem hasKey_condSet {t : Template} {a k : String} {v : FieldVal} {c : Bool}
    (h : hasKey (if c then setKey t a v else t) k = true) :
    hasKey t k = true ∨ k = a := by
  cases c with
  | false => exact Or.inl h
  | true =>
    rw [if_pos rfl, hasKey_setKey] at h
    simp only [Bool.or_eq_true] at h
    rcases h with h1 | h2
    · exact Or.inl h1
    · exact Or.inr (eq_of_beq h2).symm

theorem hasKey_gatedSet {t : Template} {a k : String} {v : FieldVal} {c : Bool}
    (h : hasKey (if c && hasKey t a then setKey t a v else t) k = true) :
    hasKey t k = true := by
  by_cases hc : (c && hasKey t a) = true
  · rw [if_pos hc] at h
    exact hasKey_setKey_existing (Bool.and_elim_right hc) h
  · rw [if_neg hc] at h
    exact h

theorem hasKey_pubSet {t : Template} {k : String} {v : FieldVal} {c : Bool}
    (h : hasKey (if c then
        (if hasKey t "publicationTitle" then setKey t "publicationTitle" v
         else if hasKey t "blogTitle" then setKey t "blogTitle" v
         else if hasKey t "websiteTitle" then setKey t "websiteTitle" v
         else t) else t) k = true) :
    hasKey t k = true := by
  cases c with
  | false => exact h
  | true =>
    rw [if_pos rfl] at h
    by_cases h1 : hasKey t "publicationTitle" = true
    · rw [if_pos h1] at h
      exact hasKey_setKey_existing h1 h
    · rw [if_neg h1] at h
      by_cases h2 : hasKey t "blogTitle" = true
      · rw [if_pos h2] at h
        exact hasKey_setKey_existing h2 h
      · rw [if_neg h2] at h
        by_cases h3 : hasKey t "websiteTitle" = true
        · rw [if_pos h3] at h
          exact hasKey_setKey_existing h3 h
        · rw [if_neg h3] at h
          exact h

/-! ## Claims -/

/-- C1: the spec says `unwrapUrl` never raises and degrades to returning
its input unchanged on every failure path, including a candidate query
parameter whose value cannot be URL-decoded.  The code calls
`decodeURIComponent` outside its `try`/`catch`, so on
`https://example.com/a?url=%25` (parsed: pathname `/a`, query
`url=%25`, whose `url` parameter is the already-once-decoded value `%`)
the `URIError` escapes instead of the input being returned. -/
theorem C1_unwrap_raises_on_undecodable_param :
    unwrapUrl (some { pathname := "/a", query := "url=%25" })
      "https://example.com/a?url=%25" = .error () := by decide

/-- C3 counterexample: the claim says the author name
`"World Health Organization"` yields a creator with a `name` field, not
split into first/last.  The name has three whitespace tokens, so
`createItem` splits it: firstName `"World Health"`, lastName
`"Organization"`, and no `name` field. -/
theorem C3_counterexample_org_name_split :
    mapAuthor "World Health Organization" =
      { creatorType := "author"
        firstName := some "World Health"
        lastName := some "Organization"
        name := none } := by decide

/-- C3 (amended): a name whose whitespace-split token count is at least
2 yields creatorType `author` with firstName all-but-last tokens
space-joined and lastName the last token, and otherwise yields
creatorType `author` with the name as given; `"Jane Q. Public"` splits
into `"Jane Q."` / `"Public"`, a genuinely single-token name such as
`"UNESCO"` keeps a `name` field, and `"World Health Organization"`
(three tokens) splits into `"World Health"` / `"Organization"`. -/
theorem C3_author_name_splitting :
    (∀ name : String, 2 ≤ (wsSplit (trimChars name.toList)).length →
      mapAuthor name =
        { creatorType := "author"
          firstName := some (String.mk (joinSpace (wsSplit (trimChars name.toList)).dropLast))
          lastName := some (String.mk ((wsSplit (trimChars name.toList)).getLastD []))
          name := none }) ∧
    (∀ name : String, (wsSplit (trimChars name.toList)).length < 2 →
      mapAuthor name = { creatorType := "author", name := some name }) ∧
    mapAuthor "Jane Q. Public" =
      { creatorType := "author", firstName := some "Jane Q.", lastName := some "Public",
        name := none } ∧
    mapAuthor "UNESCO" = { creatorType := "author", name := some "UNESCO" } ∧
    mapAuthor "World Health Organization" =
      { creatorType := "author", firstName := some "World Health",
        lastName := some "Organization", name := none } := by
  refine ⟨?_, ?_, by decide, by decide, by decide⟩
  · intro name h
    unfold mapAuthor
    rw [if_pos h]
  · intro name h
    unfold mapAuthor
    rw [if_neg (by omega)]

theorem C3_witness :
    mapAuthor "Jane Q. Public" =
      { creatorType := "author", firstName := some "Jane Q.", lastName := some "Public",
        name := none } := by
  have h := C3_author_name_splitting.1 "Jane Q. Public" (by decide)
  simpa using h

/-- C4 counterexample: the claim says every input whose lowercased form
is not an alias key comes back unchanged.  Property access on the
object literal consults the prototype chain: `"constructor"` is not an
own key, yet `ITEM_TYPE_MAP["constructor"]` is the inherited truthy
`Object.prototype.constructor`, so `resolveItemType "constructor"`
returns that function — not the input string. -/
theorem C4_counterexample_proto_member_not_passthrough :
    resolveItemType "constructor" = JsValue.protoMember "constructor" ∧
    JsValue.protoMember "constructor" ≠ JsValue.str "constructor" := by decide

/-- C4 (amended): `resolveItemType` lowercases its input and performs
JavaScript property lookup on the alias table: an own key returns the
mapped canonical type; a property name inherited from
`Object.prototype` (constructor, toString, valueOf, hasOwnProperty,
isPrototypeOf, propertyIsEnumerable, toLocaleString, `__proto__` and
the define/lookup accessors) makes the `||` fallback return that truthy
non-string member instead of the input; every other input is returned
unchanged.  `resolveItemType "Article" = "journalArticle"` and
`resolveItemType "unknownAlias" = "unknownAlias"`. -/
theorem C4_resolveItemType_with_property_chain :
    (∀ s v : String, lookupStr ITEM_TYPE_MAP (lowerStr s) = some v →
      resolveItemType s = .str v) ∧
    (∀ s : String, lookupStr ITEM_TYPE_MAP (lowerStr s) = none →
      OBJECT_PROTOTYPE_MEMBERS.contains (lowerStr s) = true →
      resolveItemType s = .protoMember (lowerStr s)) ∧
    (∀ s : String, lookupStr ITEM_TYPE_MAP (lowerStr s) = none →
      OBJECT_PROTOTYPE_MEMBERS.contains (lowerStr s) = false →
      resolveItemType s = .str s) ∧
    resolveItemType "Article" = .str "journalArticle" ∧
    resolveItemType "unknownAlias" = .str "unknownAlias" := by
  refine ⟨?_, ?_, ?_, by decide, by decide⟩
  · intro s v h
    obtain ⟨p0, hf, hv⟩ := Option.map_eq_some'.mp h
    have hmem := List.mem_of_find?_eq_some hf
    have hne : v ≠ "" := by
      subst hv
      fin_cases hmem <;> decide
    have hacc : itemTypeMapAccess (lowerStr s) = some (.str v) := by
      unfold itemTypeMapAccess
      rw [h]
    unfold resolveItemType
    rw [hacc]
    dsimp only
    rw [if_neg hne]
  · intro s h hm
    have hacc : itemTypeMapAccess (lowerStr s) = some (.protoMember (lowerStr s)) := by
      unfold itemTypeMapAccess
      rw [h, if_pos hm]
    unfold resolveItemType
    rw [hacc]
  · intro s h hm
    have hacc : itemTypeMapAccess (lowerStr s) = none := by
      unfold itemTypeMapAccess
      rw [h, if_neg (fun hc => by rw [hm] at hc; exact Bool.false_ne_true hc)]
    unfold resolveItemType
    rw [hacc]

theorem C4_witness :
    lookupStr ITEM_TYPE_MAP (lowerStr "unknownAlias") = none ∧
    OBJECT_PROTOTYPE_MEMBERS.contains (lowerStr "unknownAlias") = false ∧
    resolveItemType "unknownAlias" = .str "unknownAlias" :=
  ⟨by decide, by decide,
    C4_resolveItemType_with_property_chain.2.2.1 "unknownAlias" (by decide) (by decide)⟩

/-- C2 counterexample: the claim says the date field is assigned only
when the template already declares a date field.  On a template
declaring only `title` and `url`, a supplied date is assigned anyway —
`template.date = date` carries no `"date" in template` gate, unlike
`url`, `abstractNote`, `extra`, `volume`, `issue`, `pages` and `DOI`. -/
theorem C2_counterexample_date_not_gated :
    hasKey [("title", FieldVal.str ""), ("url", FieldVal.str "")] "date" = false ∧
    hasKey
      (fillTemplate [("title", FieldVal.str ""), ("url", FieldVal.str "")]
        { title := "T", date := some "2024-01-01" }) "date" = true := by decide

/-- C2 (amended): the date field is assigned whenever the caller
supplied a non-empty date, with no template-declaration gate; for every
template and metadata input, filling never adds a key other than
`title`, `date`, `tags` and `collections` that was absent from the
template. -/
theorem C2_fill_adds_only_title_date_tags_collections :
    ∀ (tpl : Template) (r : SaveRequest) (k : String),
      hasKey (fillTemplate tpl r) k = true →
      hasKey tpl k = true ∨ k = "title" ∨ k = "date" ∨ k = "tags" ∨ k = "collections" := by
  intro tpl r k h
  simp only [fillTemplate] at h
  rcases hasKey_condSet h with h | hk
  case inr => exact Or.inr (Or.inr (Or.inr (Or.inr hk)))
  rcases hasKey_condSet h with h | hk
  case inr => exact Or.inr (Or.inr (Or.inr (Or.inl hk)))
  replace h := hasKey_gatedSet h
  replace h := hasKey_gatedSet h
  replace h := hasKey_gatedSet h
  replace h := hasKey_gatedSet h
  replace h := hasKey_gatedSet h
  replace h := hasKey_pubSet h
  replace h := hasKey_gatedSet h
  replace h := hasKey_gatedSet h
  replace h := hasKey_gatedSet h
  rcases hasKey_condSet h with h | hk
  case inr => exact Or.inr (Or.inr (Or.inl hk))
  rw [hasKey_setKey] at h
  simp only [Bool.or_eq_true] at h
  rcases h with h | h2
  · exact Or.inl h
  · exact Or.inr (Or.inl (eq_of_beq h2).symm)

theorem C2_witness :
    hasKey [("title", FieldVal.str ""), ("url", FieldVal.str "")] "url" = true ∨
      "url" = "title" ∨ "url" = "date" ∨ "url" = "tags" ∨ "url" = "collections" :=
  C2_fill_adds_only_title_date_tags_collections
    [("title", FieldVal.str ""), ("url", FieldVal.str "")]
    { title := "T", url := some "https://example.com/x" } "url" (by decide)

theorem unwrapLoop_ok_shape (rec : URLRecord) (isW : Bool) (raw : String) :
    ∀ (l : List String) (v : String), unwrapLoop rec isW raw l = .ok v →
      v = raw ∨ strStartsWith v "http://" = true ∨ strStartsWith v "https://" = true := by
  intro l
  induction l with
  | nil =>
    intro v h
    simp only [unwrapLoop] at h
    exact Or.inl (Except.ok.inj h).symm
  | cons p rest ih =>
    intro v h
    simp only [unwrapLoop] at h
    split at h
    · exact ih v h
    · split at h
      · exact ih v h
      · split at h
        · exact Except.noConfusion h
        · rename_i decoded hdeq
          split at h
          · rename_i hstarts
            split at h
            · have hv : decoded = v := Except.ok.inj h
              subst hv
              simp only [Bool.or_eq_true] at hstarts
              rcases hstarts with h1 | h2
              · exact Or.inr (Or.inl h1)
              · exact Or.inr (Or.inr h2)
            · split at h
              · have hv : decoded = v := Except.ok.inj h
                subst hv
                simp only [Bool.or_eq_true] at hstarts
                rcases hstarts with h1 | h2
                · exact Or.inr (Or.inl h1)
                · exact Or.inr (Or.inr h2)
              · exact ih v h
          · exact ih v h

/-- C6: every value `unwrapUrl` returns (on any parse outcome) is either
the input itself or a string starting with `http://` or `https://`; a
candidate parameter whose decoded value is relative is never returned. -/
theorem C6_unwrap_returns_input_or_absolute_url :
    ∀ (parsed : Option URLRecord) (raw v : String),
      unwrapUrl parsed raw = .ok v →
      v = raw ∨ strStartsWith v "http://" = true ∨ strStartsWith v "https://" = true := by
  intro parsed raw v h
  cases parsed with
  | none => exact Or.inl (Except.ok.inj h).symm
  | some rec => exact unwrapLoop_ok_shape rec _ raw URL_PARAM_NAMES v h

theorem C6_witness :
    "https://other.example.com/x" =
        "https://example.com/api/proxy?target=https://other.example.com/x" ∨
      strStartsWith "https://other.example.com/x" "http://" = true ∨
      strStartsWith "https://other.example.com/x" "https://" = true :=
  C6_unwrap_returns_input_or_absolute_url
    (some { pathname := "/api/proxy", query := "target=https://other.example.com/x" })
    "https://example.com/api/proxy?target=https://other.example.com/x"
    "https://other.example.com/x" (by decide)

theorem unwrapLoop_findSome (rec : URLRecord) (raw : String) :
    ∀ l : List String, (∀ p ∈ l, paramDecodes rec p = true) →
      unwrapLoop rec (wrapperPatternsTest rec.pathname) raw l =
        .ok ((l.findSome? (qualifyingValue rec)).getD raw) := by
  intro l
  induction l with
  | nil => intro _; rfl
  | cons p rest ih =>
    intro hall
    have hp : paramDecodes rec p = true := hall p (List.mem_cons_self p rest)
    have hrest : ∀ q ∈ rest, paramDecodes rec q = true :=
      fun q hq => hall q (List.mem_cons_of_mem p hq)
    simp only [unwrapLoop, List.findSome?_cons]
    cases hq : searchParamsGet rec.query p with
    | none =>
      have hqv : qualifyingValue rec p = none := by simp [qualifyingValue, hq]
      rw [hqv]
      exact ih hrest
    | some c =>
      dsimp only
      by_cases hc : c = ""
      · subst hc
        rw [if_pos rfl]
        have hqv : qualifyingValue rec p = none := by simp [qualifyingValue, hq]
        rw [hqv]
        exact ih hrest
      · rw [if_neg hc]
        have hdec : (decodeURIComponent c).isSome = true := by
          unfold paramDecodes at hp
          rw [hq] at hp
          simpa [hc] using hp
        obtain ⟨dec, hdeq⟩ := Option.isSome_iff_exists.mp hdec
        rw [hdeq]
        dsimp only
        by_cases hsb : (strStartsWith dec "http://" || strStartsWith dec "https://") = true
        · rw [if_pos hsb]
          by_cases hw : wrapperPatternsTest rec.pathname = true
          · rw [if_pos hw]
            have hqv : qualifyingValue rec p = some dec := by
              simp [qualifyingValue, hq, hc, hdeq, hsb, hw]
            rw [hqv]
            rfl
          · rw [if_neg hw]
            by_cases hs : (pathSegments rec.pathname).length ≥ 2
            · rw [if_pos hs]
              have hqv : qualifyingValue rec p = some dec := by
                simp [qualifyingValue, hq, hc, hdeq, hsb, hs]
              rw [hqv]
              rfl
            · rw [if_neg hs]
              have hqv : qualifyingValue rec p = none := by
                simp [qualifyingValue, hq, hc, hdeq, hsb,
                  Bool.eq_false_iff.mpr hw, hs]
              rw [hqv]
              exact ih hrest
        · rw [if_neg hsb]
          have hqv : qualifyingValue rec p = none := by
            simp [qualifyingValue, hq, hc, hdeq, Bool.eq_false_iff.mpr hsb]
          rw [hqv]
          exact ih hrest

/-- C5 counterexample: the claim asserts
`unwrap("https://pdfrenderer.example.com/render?url=https%3A%2F%2Freal.example.com%2Fdoc.pdf")`
equals `"https://real.example.com/doc.pdf"`.  The wrapper patterns are
tested against the pathname only; `pdfrenderer` sits in the hostname,
the pathname `/render` matches no pattern (there is no `pdf` after
`render`) and has a single segment, so the code returns the input
unchanged. -/
theorem C5_counterexample_pdfrenderer_not_unwrapped :
    unwrapUrl
        (some { pathname := "/render",
                query := "url=https%3A%2F%2Freal.example.com%2Fdoc.pdf" })
        "https://pdfrenderer.example.com/render?url=https%3A%2F%2Freal.example.com%2Fdoc.pdf" =
      .ok "https://pdfrenderer.example.com/render?url=https%3A%2F%2Freal.example.com%2Fdoc.pdf" ∧
    "https://pdfrenderer.example.com/render?url=https%3A%2F%2Freal.example.com%2Fdoc.pdf" ≠
      "https://real.example.com/doc.pdf" :=
  ⟨by decide, by decide⟩

/-- C5 (amended): on every parsed absolute URL all of whose present,
non-empty candidate parameter values decode without a `URIError`,
`unwrapUrl` returns the decoded value of the first candidate parameter
(in the fixed order url, source, target, uri, link, src) whose decoded
value starts with `http://` or `https://` and for which the URL's
pathname matches a wrapper pattern or has at least 2 stripped segments;
when no candidate qualifies it returns the input unchanged.  (The
pdfrenderer example of the claim does not unwrap, since the patterns
are tested against the pathname only — see the counterexample; a
two-segment non-wrapper path such as `/api/proxy` unwraps while a
one-segment path such as `/search` does not.) -/
theorem C5_unwrap_first_qualifying_param :
    ∀ (rec : URLRecord) (raw : String),
      (∀ p ∈ URL_PARAM_NAMES, paramDecodes rec p = true) →
      unwrapUrl (some rec) raw =
        .ok ((URL_PARAM_NAMES.findSome? (qualifyingValue rec)).getD raw) :=
  fun rec raw hall => unwrapLoop_findSome rec raw URL_PARAM_NAMES hall

theorem C5_witness :
    unwrapUrl (some { pathname := "/api/proxy", query := "target=https://other.example.com/x" })
        "https://example.com/api/proxy?target=https://other.example.com/x" =
      .ok ((URL_PARAM_NAMES.findSome?
          (qualifyingValue
            { pathname := "/api/proxy", query := "target=https://other.example.com/x" })).getD
        "https://example.com/api/proxy?target=https://other.example.com/x") :=
  C5_unwrap_first_qualifying_param
    { pathname := "/api/proxy", query := "target=https://other.example.com/x" }
    "https://example.com/api/proxy?target=https://other.example.com/x" (by decide)

theorem listing_filter_lemma {rows : List RawItem}
    (hdata : ∀ r ∈ rows, r.data.isSome = true) :
    ∀ s ∈ (rows.filter keepTopLevel).map formatItemSummary,
      s.itemType ≠ some "attachment" ∧ s.itemType ≠ some "note" := by
  intro s hs
  rcases List.mem_map.mp hs with ⟨r, hr, rfl⟩
  rcases List.mem_filter.mp hr with ⟨hrow, hkeep⟩
  obtain ⟨d, hd⟩ := Option.isSome_iff_exists.mp (hdata r hrow)
  simp only [keepTopLevel, hd, Option.some_bind, Bool.and_eq_true, bne_iff_ne] at hkeep
  have hIT : (formatItemSummary r).itemType = d.itemType := by
    simp [formatItemSummary, hd]
  rw [hIT]
  exact hkeep

/-- C7 counterexample: the filter checks `r.data?.itemType`, but the
normalizer falls back to the row itself when `data` is absent; a row
without a `data` record but with a bare top-level
`itemType: "attachment"` passes the filter and its summary carries
itemType `attachment`. -/
theorem C7_counterexample_dataless_row :
    (searchItems [{ self := { itemType := some "attachment" }, data := none }]).map
        (fun s => s.itemType) = [some "attachment"] := by decide

/-- C7 (amended): for every raw row list all of whose rows carry a
`data` record (the shape the upstream API actually returns), the
listing operations `searchItems`, `getCollectionItems` and
`getRecentItems` drop every row whose `data.itemType` is `attachment`
or `note` before normalizing, so no summary in their output has
itemType `attachment` or `note`.  (A hypothetical row with no `data`
record but a bare top-level item type escapes the filter — see the
counterexample.) -/
theorem C7_listings_filter_attachments_and_notes :
    ∀ rows : List RawItem, (∀ r ∈ rows, r.data.isSome = true) →
      (∀ s ∈ searchItems rows,
        s.itemType ≠ some "attachment" ∧ s.itemType ≠ some "note") ∧
      (∀ s ∈ getCollectionItems rows,
        s.itemType ≠ some "attachment" ∧ s.itemType ≠ some "note") ∧
      (∀ s ∈ getRecentItems rows,
        s.itemType ≠ some "attachment" ∧ s.itemType ≠ some "note") :=
  fun _ hdata =>
    ⟨listing_filter_lemma hdata, listing_filter_lemma hdata, listing_filter_lemma hdata⟩

theorem C7_witness :
    (formatItemSummary { self := {}, data := some { itemType := some "book" } }).itemType ≠
        some "attachment" ∧
      (formatItemSummary { self := {}, data := some { itemType := some "book" } }).itemType ≠
        some "note" :=
  (C7_listings_filter_attachments_and_notes
      [{ self := {}, data := some { itemType := some "book" } }] (by decide)).1
    (formatItemSummary { self := {}, data := some { itemType := some "book" } }) (by decide)

theorem ite_bne_none (s : String) :
    (if (s != "") = true then some s else none) = (if s = "" then none else some s) := by
  by_cases h : s = "" <;> simp [h]

/-- C8: the summary creators field takes each creator's `name` when
present (non-empty), else first and last name joined with one space and
trimmed, drops empty results, joins the survivors with `"; "`, and is
`null` rather than the empty string when the join is empty; in
particular a lone creator with empty first and last name summarizes to
`creators: null`. -/
theorem C8_creators_summary_field :
    (∀ raw : RawItem,
      (formatItemSummary raw).creators = creatorsSpec (raw.data.getD raw.self).creators) ∧
    (formatItemSummary
        { self := {},
          data := some { creators := [{ firstName := some "", lastName := some "" }] } }).creators
      = none := by
  constructor
  · intro raw
    exact ite_bne_none
      (String.intercalate "; "
        (((raw.data.getD raw.self).creators.map creatorDisplay).filter (fun s => s != "")))
  · decide

/-- C10: the normalizer treats empty-string field values like absent
ones: an empty-string title summarizes to `(untitled)`, and
empty-string date or url fields summarize to `null`. -/
theorem C10_empty_string_fields_default :
    ∀ raw : RawItem,
      ((raw.data.getD raw.self).title = some "" →
        (formatItemSummary raw).title = "(untitled)") ∧
      ((raw.data.getD raw.self).date = some "" → (formatItemSummary raw).date = none) ∧
      ((raw.data.getD raw.self).url = some "" → (formatItemSummary raw).url = none) := by
  intro raw
  refine ⟨fun h => ?_, fun h => ?_, fun h => ?_⟩ <;>
    simp [formatItemSummary, h, optTruthy]

theorem C10_witness :
    (formatItemSummary
        { self := {}, data := some { title := some "", date := some "", url := some "" } }).title
        = "(untitled)" ∧
      (formatItemSummary
        { self := {}, data := some { title := some "", date := some "", url := some "" } }).date
        = none ∧
      (formatItemSummary
        { self := {}, data := some { title := some "", date := some "", url := some "" } }).url
        = none :=
  ⟨(C10_empty_string_fields_default
      { self := {}, data := some { title := some "", date := some "", url := some "" } }).1 rfl,
    (C10_empty_string_fields_default
      { self := {}, data := some { title := some "", date := some "", url := some "" } }).2.1 rfl,
    (C10_empty_string_fields_default
      { self := {}, data := some { title := some "", date := some "", url := some "" } }).2.2 rfl⟩

/-- C9 counterexample: attachment-step failure is not always a
structured result, and partial state is not always reported.
`unwrapUrl` runs before `attachPdfFromUrl`'s `try`, so on a pdfUrl
whose candidate parameter cannot be decoded
(`https://host.example.com/a/b?url=%25`, parsed: pathname `/a/b`,
query `url=%25`) the `URIError` escapes the attachment step as a
raised exception.  Inside `createItem` that throw is caught by the
outer catch, which returns `success:false` with the thrown message and
no `item_key` — although the parent item had already been created
(here with key `"K"`). -/
theorem C9_counterexample_unwrap_throw_loses_item_key :
    attachPdfFromUrl (some { pathname := "/a/b", query := "url=%25" }) {}
        "https://host.example.com/a/b?url=%25" none = .error () ∧
    createItem
        { template := .ok [("title", FieldVal.str "")]
          posted := fun _ => .ok (some "K")
          pdfAttach := fun _ => .error "URI malformed" }
        { title := "T", pdfUrl := some "https://host.example.com/a/b?url=%25" } =
      { success := false, error := some "URI malformed" } :=
  ⟨by decide, rfl⟩

/-- C9 (amended): every failure inside an attachment step's `try` is
reported as a structured `success:false` result; when the file upload
fails after the attachment item was created, that result carries the
created attachment item's key; and when an attachment step resolves to
a failure result, `createItem` still reports `success:true` with the
created item's key and the embedded attachment failure.  However,
`unwrapUrl` runs before `attachPdfFromUrl`'s `try`, so a `URIError`
from an undecodable candidate parameter escapes the attachment step as
a raised exception, and inside `createItem` that throw is caught by the
outer catch and returned as `success:false` with the thrown message
and without the created item's key — a silent partial state. -/
theorem C9_attachment_failures_structured :
    (∀ (parsed : Option URLRecord) (env : AttachEnv) (url0 url1 : String)
        (fn : Option String) (resp : FetchOutcome) (key : String) (up : UploadOutcome),
      unwrapUrl parsed url0 = .ok url1 →
      env.fetched = .ok resp → resp.ok = true → resp.bodyLen ≠ 0 →
      env.created = .ok (some key) → env.uploaded = .ok up → up.ok = some false →
      attachPdfFromUrl parsed env url0 fn = .ok
        { success := false
          error := some ("Attachment item created (" ++ key
            ++ ") but file upload failed. Status: " ++ statusStr up.status
            ++ ". Response: " ++ up.raw)
          attachment_key := some key }) ∧
    (∀ (env : CreateEnv) (r : SaveRequest) (tpl0 : Template)
        (itemKey : String) (att : AttachResult),
      env.template = .ok tpl0 →
      env.posted (fillTemplate tpl0 r) = .ok (some itemKey) →
      optTruthy r.pdfUrl = true →
      env.pdfAttach itemKey = .ok att →
      createItem env r =
        { success := true
          item_key := some itemKey
          message := some ("Created " ++ jsValueText (resolveItemType r.itemType)
            ++ ": " ++ r.title)
          pdf_attachment := some att }) ∧
    (∀ (env : CreateEnv) (r : SaveRequest) (tpl0 : Template) (itemKey msg : String),
      env.template = .ok tpl0 →
      env.posted (fillTemplate tpl0 r) = .ok (some itemKey) →
      optTruthy r.pdfUrl = true →
      env.pdfAttach itemKey = .error msg →
      createItem env r = { success := false, error := some msg }) := by
  refine ⟨?_, ?_, ?_⟩
  · intro parsed env url0 url1 fn resp key up hunw hf hok hbl hcr hup hupok
    simp [attachPdfFromUrl, hunw, hf, hok, hbl, hcr, hup, hupok]
  · intro env r tpl0 itemKey att htpl hpost hpdf hatt
    simp [createItem, htpl, hpost, hpdf, hatt]
  · intro env r tpl0 itemKey msg htpl hpost hpdf hatt
    simp [createItem, htpl, hpost, hpdf, hatt]

theorem C9_witness :
    attachPdfFromUrl none
        { fetched := .ok { ok := true, bodyLen := 5 }
          created := .ok (some "K1")
          uploaded := .ok { ok := some false, status := some 400, raw := "denied" } }
        "http://files.example.com/a.pdf" none = .ok
        { success := false
          error := some ("Attachment item created (" ++ "K1"
            ++ ") but file upload failed. Status: "
            ++ statusStr (some 400) ++ ". Response: " ++ "denied")
          attachment_key := some "K1" } ∧
      createItem
        { template := .ok [("title", FieldVal.str "")]
          posted := fun _ => .ok (some "K2")
          pdfAttach := fun k => .ok { success := false, error := some ("failed for " ++ k) } }
        { title := "T", pdfUrl := some "http://files.example.com/a.pdf" } =
        { success := true
          item_key := some "K2"
          message := some ("Created " ++ jsValueText (resolveItemType "webpage") ++ ": " ++ "T")
          pdf_attachment := some { success := false, error := some ("failed for " ++ "K2") } } ∧
      createItem
        { template := .ok [("title", FieldVal.str "")]
          posted := fun _ => .ok (some "K3")
          pdfAttach := fun _ => .error "URI malformed" }
        { title := "T", pdfUrl := some "https://host.example.com/a/b?url=%25" } =
        { success := false, error := some "URI malformed" } :=
  ⟨C9_attachment_failures_structured.1 none
      { fetched := .ok { ok := true, bodyLen := 5 }
        created := .ok (some "K1")
        uploaded := .ok { ok := some false, status := some 400, raw := "denied" } }
      "http://files.example.com/a.pdf" "http://files.example.com/a.pdf" none
      { ok := true, bodyLen := 5 } "K1" { ok := some false, status := some 400, raw := "denied" }
      (by decide) rfl rfl (by decide) rfl rfl rfl,
    C9_attachment_failures_structured.2.1
      { template := .ok [("title", FieldVal.str "")]
        posted := fun _ => .ok (some "K2")
        pdfAttach := fun k => .ok { success := false, error := some ("failed for " ++ k) } }
      { title := "T", pdfUrl := some "http://files.example.com/a.pdf" }
      [("title", FieldVal.str "")] "K2"
      { success := false, error := some ("failed for " ++ "K2") } rfl rfl (by decide) rfl,
    C9_attachment_failures_structured.2.2
      { template := .ok [("title", FieldVal.str "")]
        posted := fun _ => .ok (some "K3")
        pdfAttach := fun _ => .error "URI malformed" }
      { title := "T", pdfUrl := some "https://host.example.com/a/b?url=%25" }
      [("title", FieldVal.str "")] "K3" "URI malformed" rfl rfl (by decide) rfl⟩

end Zotero
